import Mathlib

/-!
Verification of the single-file demonstration program (src/main.rs).

The program's `main`:
  1. prints a greeting line;
  2. defines (but never calls) a local function `print_padovan` that builds
     a vector starting from [1,1,1], appending `v[i-3] + v[i-2]` for
     `i in 3..10`, and prints it in debug form;
  3. builds `Box::new((0.625, 0.5))`, formats it with the tuple Debug
     convention and asserts the result equals "(0.625, 0.5)";
  4. pushes three `Person` records onto an empty vector and prints one
     line per record in insertion order.

Shallow embedding: `i32` values are modelled as `Int` (all values that
occur are far below 2^31, so wrap-around never matters); vector indexing
is modelled with `List.get?` returning `Option`, so an out-of-bounds
access (a Rust panic) is `none`; the `assert_eq!` abort is an
`Except.error`.
-/

/- ### The padovan vector built by print_padovan -/

/-- The initial vector `vec![1,1,1]` of `print_padovan`. -/
def padovanInit : List Int := [1, 1, 1]

/-- One iteration of the loop body of `print_padovan`:
read `padovan[i-3]` and `padovan[i-2]` (out of bounds models a panic as
`none`) and push their sum. -/
def padovanStep (v : List Int) (i : Nat) : Option (List Int) := do
  let a ← v.get? (i - 3)
  let b ← v.get? (i - 2)
  pure (v.concat (a + b))

/-- The vector after the first `k` iterations of the loop
`for i in 3..10` of `print_padovan` (`none` if any indexing panicked). -/
def padovanAfter (k : Nat) : Option (List Int) :=
  (List.range' 3 k).foldlM padovanStep padovanInit

/-- The vector of `print_padovan` after the full loop (7 iterations,
`i` ranging over 3..=9). -/
def padovanFinal : Option (List Int) := padovanAfter 7

/-- Debug rendering of a vector of integers (Rust `{:?}` on `Vec<i32>`):
bracketed, comma-separated. -/
def fmtVecInt (v : List Int) : String :=
  "[" ++ String.intercalate ", " (v.map (fun n => toString n)) ++ "]"

/-- The line `print_padovan` would print if it were called
(`none` if the construction panicked). -/
def print_padovan : Option String :=
  padovanFinal.map (fun v => "P(1..10) = " ++ fmtVecInt v)

/- ### The heap-boxed pair and its Debug rendering -/

/-- Exact value of a nonnegative IEEE-754 binary64 number below 1, as a
dyadic rational `num / 2 ^ exp`.  The source literals 0.625 = 5/2^3 and
0.5 = 1/2^1 are exactly representable in binary64, so this model of the
two `f64` values is exact. -/
structure Dyadic where
  num : Nat
  exp : Nat
deriving DecidableEq

/-- Drop trailing zero digits of a fractional expansion. -/
def stripTrailingZeros (s : List Char) : List Char :=
  (s.reverse.dropWhile (fun c => c = '0')).reverse

/-- The terminating decimal expansion of the fractional part of a dyadic
`num / 2 ^ exp` (using `num / 2 ^ exp = num * 5 ^ exp / 10 ^ exp`),
with trailing zeros stripped; "0" when the fraction is zero. -/
def fracDecimal (d : Dyadic) : String :=
  let n := d.num * 5 ^ d.exp
  let ds := (Nat.repr n).toList
  let padded := List.replicate (d.exp - ds.length) '0' ++ ds
  let stripped := stripTrailingZeros padded
  String.mk (if stripped.isEmpty then ['0'] else stripped)

/-- Rust `Debug` rendering of one of our `f64` values.  For a finite
value whose exact decimal expansion terminates after a few digits, the
shortest decimal string that round-trips (what Rust prints) is exactly
that expansion, which is what we compute. -/
def fmtF64 (d : Dyadic) : String := "0." ++ fracDecimal d

/-- Rust `Debug` rendering of a pair: parenthesized, comma-separated.
`Box` is transparent to `Debug`, so this is also the rendering of the
boxed pair. -/
def formatPairDebug (a b : Dyadic) : String :=
  "(" ++ fmtF64 a ++ ", " ++ fmtF64 b ++ ")"

/-- The heap-boxed pair `Box::new((0.625, 0.5))` of `main`
(the box is transparent for the value it holds). -/
def point : Dyadic × Dyadic := (⟨5, 3⟩, ⟨1, 1⟩)

/-- `label = format!(..., point)` in `main`. -/
def label : String := formatPairDebug point.1 point.2

/- ### The composers vector -/

/-- The record type `Person` of `main`: a name and a birth year
(`i32`, modelled as `Int`). -/
structure Person where
  name : String
  birth : Int
deriving DecidableEq

/-- The vector `composers`, built by three pushes onto `Vec::new()`. -/
def composers : List Person :=
  ((([] : List Person).concat ⟨"Palestrina", 1525⟩).concat
      ⟨"Downland", 1563⟩).concat ⟨"Lully", 1632⟩

/-- The line printed for one composer: name, then ", born ", then year. -/
def composerLine (p : Person) : String :=
  p.name ++ ", born " ++ toString p.birth

/-- The lines printed by the `for composer in composers` loop,
in iteration (= insertion) order. -/
def composerLines : List String := composers.map composerLine

/- ### main -/

/-- The greeting printed first by `main`. -/
def greeting : String := "Hello, world!"

/-- The lines `main` prints when the assertion passes: the greeting, then
(since `print_padovan` is defined but never called) the composer lines. -/
def mainOkLines : List String := greeting :: composerLines

/-- The remainder of `main` as a function of the rendered label: the
`assert_eq!` either lets the run complete normally with its full output,
or aborts the process (error, no output is reported). -/
def mainAfterAssert (lbl : String) : Except String (List String) :=
  if lbl = "(0.625, 0.5)" then Except.ok mainOkLines
  else Except.error "assertion failed"

/-- A complete run of the program.  `main` reads neither command-line
arguments nor stdin, which the two ignored parameters make explicit. -/
def runMain (_argv _stdin : List String) : Except String (List String) :=
  mainAfterAssert label

/-- The result of the (input-free) run: `Except.ok` with the list of
stdout lines on normal termination, `Except.error` on abort. -/
def mainExc : Except String (List String) := runMain [] []

/- ### Claims -/

/-- C1: the padovan vector construction succeeds, has length 10, and its
final contents are exactly [1,1,1,2,2,3,4,5,7,9]. -/
theorem C1_padovan_contents :
    padovanFinal = some [1, 1, 1, 2, 2, 3, 4, 5, 7, 9] ∧
    padovanFinal.map List.length = some 10 := by
  constructor <;> rfl

/-- C2: rendering the boxed pair (0.625, 0.5) with the tuple Debug
convention yields exactly the string "(0.625, 0.5)", so the assertion in
main holds and the run does not abort. -/
theorem C2_label_rendering :
    formatPairDebug point.1 point.2 = "(0.625, 0.5)" ∧ mainExc.isOk = true := by
  constructor <;> rfl

/-- C3: iterating the composers vector in insertion order and formatting
each record yields exactly the three expected lines, in order. -/
theorem C3_composer_lines :
    composerLines =
      ["Palestrina, born 1525", "Downland, born 1563", "Lully, born 1632"] := by
  rfl

/-- C4 counterexample: a complete run writes 4 lines to stdout, not 5 as
the claim states (the sequence-dump line is never produced). -/
theorem C4_counterexample :
    mainExc.toOption.map List.length = some 4 ∧
    decide (mainExc.toOption.map List.length = some 5) = false := by
  constructor <;> rfl

/-- C4 (amended): a complete run writes exactly four lines to standard
output, in order: the greeting line and the three record lines; the
numeric-sequence dump line is not emitted because print_padovan is never
invoked. -/
theorem C4_output_lines :
    mainExc = Except.ok
      ["Hello, world!", "Palestrina, born 1525", "Downland, born 1563",
       "Lully, born 1632"] ∧
    mainExc.toOption.map List.length = some 4 := by
  constructor <;> rfl

/-- C5: invariant of the constructed padovan vector: for every index i
with 3 ≤ i ≤ 9, element i equals element (i-3) plus element (i-2). -/
theorem C5_padovan_invariant (i : Nat) (h3 : 3 ≤ i) (h9 : i ≤ 9) :
    (padovanFinal.getD []).getD i 0 =
      (padovanFinal.getD []).getD (i - 3) 0 +
      (padovanFinal.getD []).getD (i - 2) 0 := by
  interval_cases i <;> rfl

/-- Witness for C5, at i = 5. -/
theorem C5_padovan_invariant_witness :
    (padovanFinal.getD []).getD 5 0 =
      (padovanFinal.getD []).getD (5 - 3) 0 +
      (padovanFinal.getD []).getD (5 - 2) 0 :=
  C5_padovan_invariant 5 (by decide) (by decide)

/-- C6: the run terminates normally (no abort) and the greeting is the
first line of its standard output. -/
theorem C6_greeting_first :
    ∃ ls, mainExc = Except.ok ls ∧ ls.head? = some "Hello, world!" :=
  ⟨mainOkLines, rfl, rfl⟩

/-- C7: the program is deterministic: it reads no inputs, and any two
runs (with any argv and stdin) produce identical results. -/
theorem C7_deterministic :
    ∀ argv1 stdin1 argv2 stdin2 : List String,
      runMain argv1 stdin1 = runMain argv2 stdin2 := by
  intro _ _ _ _
  rfl

/-- Witness for C7 at concrete run environments. -/
theorem C7_deterministic_witness :
    runMain ["a"] [] = runMain [] ["b"] :=
  C7_deterministic ["a"] [] [] ["b"]

/-- C8: the only failure mode is the string-equality assertion on the
rendered label: for every possible label the run either completes with
the full output or aborts with the assertion error reporting nothing,
and on the actual label it completes. -/
theorem C8_only_failure_mode :
    (∀ lbl : String,
        mainAfterAssert lbl = Except.ok mainOkLines ∨
        mainAfterAssert lbl = Except.error "assertion failed") ∧
    mainExc = Except.ok mainOkLines := by
  refine ⟨fun lbl => ?_, rfl⟩
  unfold mainAfterAssert
  by_cases h : lbl = "(0.625, 0.5)"
  · exact Or.inl (by simp [h])
  · exact Or.inr (by simp [h])

/-- Witness for C8 at a concrete label that fails the assertion. -/
theorem C8_only_failure_mode_witness :
    mainAfterAssert "x" = Except.ok mainOkLines ∨
    mainAfterAssert "x" = Except.error "assertion failed" :=
  C8_only_failure_mode.1 "x"

/-- C9: print_padovan is defined but never invoked by main, so the run's
output is the greeting followed by the three record lines only, and the
sequence-dump line that print_padovan would emit is not among them. -/
theorem C9_padovan_never_called :
    mainExc = Except.ok
      ["Hello, world!", "Palestrina, born 1525", "Downland, born 1563",
       "Lully, born 1632"] ∧
    print_padovan = some "P(1..10) = [1, 1, 1, 2, 2, 3, 4, 5, 7, 9]" ∧
    print_padovan.getD "" ∉ mainOkLines := by
  refine ⟨rfl, rfl, ?_⟩
  decide

/-- C10: in print_padovan's loop, before each iteration k (index
i = 3 + k, 0 ≤ k < 7) the vector has length 3 + k, and that iteration's
index accesses at i-3 and i-2 both succeed (so indexing never panics). -/
theorem C10_indices_in_bounds (k : Nat) (hk : k < 7) :
    (padovanAfter k).map List.length = some (3 + k) ∧
    ((padovanAfter k).bind (fun v => padovanStep v (3 + k))).isSome = true := by
  interval_cases k <;> exact ⟨rfl, rfl⟩

/-- Witness for C10 at the first loop iteration (k = 0, i = 3). -/
theorem C10_indices_in_bounds_witness :
    (padovanAfter 0).map List.length = some (3 + 0) ∧
    ((padovanAfter 0).bind (fun v => padovanStep v (3 + 0))).isSome = true :=
  C10_indices_in_bounds 0 (by decide)
